import Mathlib

/-!
Verification of the checkmate repository: the structural PDF document model,
its XML markup serialization (`src/lib/pdf/structure.ts`), the
extract-with-original / reconstruct-from-model API routes, the worker
orchestration in the extraction and xml-to-pdf routes, and the fallback
layout synthesizer.  All definitions are shallow embeddings of the
TypeScript source; JavaScript numbers are modelled as rationals, JavaScript
`string | undefined` fields as `Option String`, and the JS falsiness of
`""`, `0`, `undefined` in `x || d` expressions is modelled explicitly.
-/

set_option linter.unusedVariables false

/-- JS `x || d` on an optional string: `undefined` and `""` are falsy. -/
def jsOrStr (o : Option String) (d : String) : String :=
  match o with
  | some s => if s = "" then d else s
  | none => d

/-- JS `x || 0` on an optional number field used for the derived stats
(`undefined` and `0` both yield `0`). -/
def jsOrNat (o : Option Nat) : Nat :=
  match o with
  | some n => n
  | none => 0

/-- `TextBlock` from `src/lib/pdf/structure.ts` (lines 6-20).
Coordinates and font size are JS numbers, modelled as rationals. -/
structure TextBlock where
  text : String
  x : ℚ
  y : ℚ
  width : ℚ
  height : ℚ
  fontSize : ℚ
  fontFamily : String
  fontWeight : String
  fontStyle : String
  color : String
  rotation : ℚ
  direction : String
  hasEOL : Bool
deriving DecidableEq

/-- `ImageBlock` from `src/lib/pdf/structure.ts` (lines 22-30). -/
structure ImageBlock where
  x : ℚ
  y : ℚ
  width : ℚ
  height : ℚ
  rotation : ℚ
  dataUrl : Option String
  description : Option String
deriving DecidableEq

/-- `PageData` from `src/lib/pdf/structure.ts` (lines 32-43). -/
structure PageData where
  pageNumber : Nat
  width : ℚ
  height : ℚ
  textBlocks : List TextBlock
  images : List ImageBlock
  background : Option String
  extractionMethod : Option String
  textLength : Option Nat
  lineCount : Option Nat
  hasContent : Option Bool
deriving DecidableEq

/-- The `metadata` parameter of `createPdfXml` (lines 47-56). -/
structure PdfMetadata where
  title : Option String
  author : Option String
  subject : Option String
  creator : Option String
  producer : Option String
  creationDate : Option String
  modificationDate : Option String
  numPages : Nat
deriving DecidableEq

/-- One pass of JS `String.prototype.replace` with a global single-character
pattern: every occurrence of `target` is replaced by `rep`. -/
def replaceAllChar (target : Char) (rep : List Char) : List Char → List Char
  | [] => []
  | c :: rest => (if c = target then rep else [c]) ++ replaceAllChar target rep rest

/-- `escapeXml` from `src/lib/pdf/structure.ts` (lines 136-143): the five
global replaces applied in source order (`&`, `<`, `>`, `"`, `'`). -/
def escapeXml (s : String) : String :=
  String.mk
    (replaceAllChar '\'' "&#39;".data
      (replaceAllChar '"' "&quot;".data
        (replaceAllChar '>' "&gt;".data
          (replaceAllChar '<' "&lt;".data
            (replaceAllChar '&' "&amp;".data s.data)))))

/-- The per-text-block fragment of the template literal in `createPdfXml`
(lines 93-110); `index` is the 0-based map index, the id uses `index + 1`. -/
def textBlockXml (pageNumber : Nat) (index : Nat) (block : TextBlock) : String :=
  "\n        <text-block \n          " ++
  "id=\x22block-" ++ toString pageNumber ++ "-" ++ toString (index + 1) ++ "\x22" ++
  "\n          x=\x22" ++ toString block.x ++
  "\x22 \n          y=\x22" ++ toString block.y ++
  "\x22 \n          width=\x22" ++ toString block.width ++
  "\x22 \n          height=\x22" ++ toString block.height ++
  "\x22\n          font-size=\x22" ++ toString block.fontSize ++
  "\x22\n          font-family=\x22" ++ escapeXml block.fontFamily ++
  "\x22\n          font-weight=\x22" ++ block.fontWeight ++
  "\x22\n          font-style=\x22" ++ block.fontStyle ++
  "\x22\n          color=\x22" ++ escapeXml block.color ++
  "\x22\n          rotation=\x22" ++ toString block.rotation ++
  "\x22\n          direction=\x22" ++ escapeXml block.direction ++
  "\x22\n          has-eol=\x22" ++ toString block.hasEOL ++
  "\x22\n          text-length=\x22" ++ toString block.text.length ++
  "\x22>\n          " ++ escapeXml block.text ++
  "\n        </text-block>"

/-- The per-image fragment of the template literal in `createPdfXml`
(lines 115-124); optional attributes are emitted only for truthy values. -/
def imageXml (pageNumber : Nat) (index : Nat) (img : ImageBlock) : String :=
  "\n        <image \n          " ++
  "id=\x22image-" ++ toString pageNumber ++ "-" ++ toString (index + 1) ++ "\x22" ++
  "\n          x=\x22" ++ toString img.x ++
  "\x22 \n          y=\x22" ++ toString img.y ++
  "\x22 \n          width=\x22" ++ toString img.width ++
  "\x22 \n          height=\x22" ++ toString img.height ++
  "\x22\n          rotation=\x22" ++ toString img.rotation ++
  "\x22\n          " ++
  (match img.dataUrl with
   | some u => if u = "" then "" else "data-url=\x22" ++ escapeXml u ++ "\x22"
   | none => "") ++
  "\n          " ++
  (match img.description with
   | some d => if d = "" then "" else "description=\x22" ++ escapeXml d ++ "\x22"
   | none => "") ++
  " />"

/-- The images section of a page (lines 113-125): the ternary on
`page.images.length > 0`. -/
def imagesSectionXml (p : PageData) : String :=
  if p.images.length > 0 then
    "\n      <images count=\x22" ++ toString p.images.length ++ "\x22>\n        " ++
    String.join (p.images.enum.map (fun pr => imageXml p.pageNumber pr.1 pr.2)) ++
    "\n      </images>"
  else "<images count=\x220\x22 />"

/-- The background section of a page (line 127): emitted only when truthy. -/
def backgroundXml (p : PageData) : String :=
  match p.background with
  | some b => if b = "" then "" else "<background>" ++ escapeXml b ++ "</background>"
  | none => ""

/-- The per-page fragment of the template literal in `createPdfXml`
(lines 72-129).  Note: the page-level `text-length` and `line-count`
attributes are `page.textLength || 0` and `page.lineCount || 0`, the
upstream-supplied values; they are not recomputed from the blocks. -/
def pageXml (p : PageData) : String :=
  "\n    <page \n      number=\x22" ++ toString p.pageNumber ++
  "\x22 \n      width=\x22" ++ toString p.width ++
  "\x22 \n      height=\x22" ++ toString p.height ++
  "\x22\n      extraction-method=\x22" ++ escapeXml (jsOrStr p.extractionMethod "unknown") ++
  "\x22" ++
  ("\n      text-length=\x22" ++ toString (jsOrNat p.textLength) ++
   "\x22\n      line-count=\x22" ++ toString (jsOrNat p.lineCount) ++ "\x22") ++
  "\n      has-content=\x22" ++ toString (p.hasContent.getD false) ++
  "\x22>\n      \n      <page-info>\n        <dimensions width=\x22" ++ toString p.width ++
  "\x22 height=\x22" ++ toString p.height ++
  "\x22 />\n        <content-stats \n          text-length=\x22" ++ toString (jsOrNat p.textLength) ++
  "\x22 \n          line-count=\x22" ++ toString (jsOrNat p.lineCount) ++
  "\x22 \n          text-blocks=\x22" ++ toString p.textBlocks.length ++
  "\x22\n          images=\x22" ++ toString p.images.length ++
  "\x22 />\n        <extraction-details method=\x22" ++ escapeXml (jsOrStr p.extractionMethod "unknown") ++
  "\x22 />\n      </page-info>\n      \n      <text-blocks count=\x22" ++ toString p.textBlocks.length ++
  "\x22>\n        " ++
  String.join (p.textBlocks.enum.map (fun pr => textBlockXml p.pageNumber pr.1 pr.2)) ++
  "\n      </text-blocks>\n      \n      " ++
  imagesSectionXml p ++
  "\n      \n      " ++
  backgroundXml p ++
  "\n      \n    </page>"

/-- `createPdfXml` from `src/lib/pdf/structure.ts` (lines 45-134).  The
`fileName` parameter is accepted but unused, exactly as in the source. -/
def createPdfXml (fileName : String) (metadata : PdfMetadata) (pages : List PageData) : String :=
  "<?xml version=\x221.0\x22 encoding=\x22UTF-8\x22?>\n<pdf-document>\n  <metadata>\n    <title>" ++
  escapeXml (jsOrStr metadata.title "") ++
  "</title>\n    <author>" ++ escapeXml (jsOrStr metadata.author "") ++
  "</author>\n    <subject>" ++ escapeXml (jsOrStr metadata.subject "") ++
  "</subject>\n    <creator>" ++ escapeXml (jsOrStr metadata.creator "") ++
  "</creator>\n    <producer>" ++ escapeXml (jsOrStr metadata.producer "") ++
  "</producer>\n    <creation-date>" ++ escapeXml (jsOrStr metadata.creationDate "") ++
  "</creation-date>\n    <modification-date>" ++ escapeXml (jsOrStr metadata.modificationDate "") ++
  "</modification-date>\n    " ++
  ("<page-count>" ++ toString metadata.numPages ++ "</page-count>") ++
  "\n  </metadata>\n  <pages>\n    " ++
  String.join (pages.map pageXml) ++
  "\n  </pages>\n</pdf-document>"

/-- The text-block entry type of `PdfStructure` (the JSON-path model from
the unnamed structure module, lines 18-25). -/
structure PdfStructureTextBlock where
  str : String
  x : Option ℚ
  y : Option ℚ
  fontName : Option String
  fontSize : Option ℚ
  dir : Option String
deriving DecidableEq

/-- The page entry type of `PdfStructure` (lines 14-26). -/
structure PdfStructurePage where
  pageNumber : Nat
  width : Option ℚ
  height : Option ℚ
  textBlocks : List PdfStructureTextBlock
deriving DecidableEq

/-- The `document` field of `PdfStructure` (lines 3-13). -/
structure PdfDocumentInfo where
  title : Option String
  author : Option String
  subject : Option String
  keywords : Option (List String)
  creator : Option String
  producer : Option String
  creationDate : Option String
  modificationDate : Option String
  numPages : Nat
deriving DecidableEq

/-- The `original` escape-hatch payload of `PdfStructure` (lines 27-32):
verbatim source bytes, base64-encoded, with name, content type and length. -/
structure PdfOriginal where
  base64 : Option String
  fileName : Option String
  contentType : Option String
  byteLength : Option Nat
deriving DecidableEq

/-- `PdfStructure` (lines 1-33): the JSON-path structural model.  The
`version` field is the literal `1` in the source type; nothing constrains
`document.numPages` against `pages.length`. -/
structure PdfStructure where
  version : Nat
  document : PdfDocumentInfo
  pages : List PdfStructurePage
  original : Option PdfOriginal
deriving DecidableEq

/-- The standard base64 alphabet used by Node's `Buffer` base64 codec. -/
def b64Alphabet : List Char :=
  "ABCDEFGHIJKLMNOPQRSTUVWXYZabcdefghijklmnopqrstuvwxyz0123456789+/".data

/-- Sextet value to base64 character. -/
def encodeB64Char (n : Nat) : Char := b64Alphabet.getD n 'A'

/-- Base64 character back to its sextet value, if any. -/
def decodeB64Char (c : Char) : Option Nat := b64Alphabet.findIdx? (fun x => x = c)

/-- Model of Node `Buffer.prototype.toString("base64")` (RFC 4648 base64
with padding), on bytes represented as naturals below 256: encode in
3-byte groups, the final group padded with `=`. -/
def encodeB64Chars : List Nat → List Char
  | [] => []
  | [a] => [encodeB64Char (a / 4), encodeB64Char (a % 4 * 16), '=', '=']
  | [a, b] => [encodeB64Char (a / 4), encodeB64Char (a % 4 * 16 + b / 16),
               encodeB64Char (b % 16 * 4), '=']
  | a :: b :: c :: rest =>
      encodeB64Char (a / 4) :: encodeB64Char (a % 4 * 16 + b / 16) ::
      encodeB64Char (b % 16 * 4 + c / 64) :: encodeB64Char (c % 64) ::
      encodeB64Chars rest

/-- Model of Node `Buffer.from(s, "base64")` on well-formed base64 text:
decode in 4-character groups, honouring `=` padding.  Malformed input
yields a truncated result, which no theorem below relies on. -/
def decodeB64Chars : List Char → List Nat
  | c1 :: c2 :: c3 :: c4 :: rest =>
    (match decodeB64Char c1, decodeB64Char c2 with
     | some a, some b =>
       if c3 = '=' then [a * 4 + b / 16]
       else
         (match decodeB64Char c3 with
          | some c =>
            if c4 = '=' then [a * 4 + b / 16, b % 16 * 16 + c / 4]
            else
              (match decodeB64Char c4 with
               | some d =>
                 (a * 4 + b / 16) :: (b % 16 * 16 + c / 4) ::
                 (c % 4 * 64 + d) :: decodeB64Chars rest
               | none => [])
          | none => [])
     | _, _ => [])
  | _ => []

/-- Base64 encoding of a byte list, as a string. -/
def encodeB64 (bytes : List Nat) : String := String.mk (encodeB64Chars bytes)

/-- Base64 decoding of a string, as a byte list. -/
def decodeB64 (s : String) : List Nat := decodeB64Chars s.data

/-- The extract-with-original route handler (`POST`), reduced to its
data transformation: the external `pdf-lib` load is represented by the
page sizes it reports; the handler stores empty `textBlocks` for every
page and embeds the upload verbatim as base64 in `original`.
`name` is JS `file.name ?? "document.pdf"` (nullish coalescing), `ctype`
is JS `file.type || "application/pdf"` (empty string is falsy). -/
def extractWithOriginal (pageSizes : List (ℚ × ℚ)) (bytes : List Nat)
    (name : Option String) (ctype : String) : PdfStructure :=
  { version := 1
    document :=
      { title := none, author := none, subject := none, keywords := none
        creator := none, producer := none, creationDate := none
        modificationDate := none, numPages := pageSizes.length }
    pages := pageSizes.enum.map (fun pr =>
      { pageNumber := pr.1 + 1, width := some pr.2.1, height := some pr.2.2
        textBlocks := [] })
    original := some
      { base64 := some (encodeB64 bytes)
        fileName := some (name.getD "document.pdf")
        contentType := some (if ctype = "" then "application/pdf" else ctype)
        byteLength := some bytes.length } }

/-- The body, content type and attachment file name of a successful
reconstruct-from-model response. -/
structure ReconstructResponse where
  body : List Nat
  contentType : String
  fileName : String
deriving DecidableEq

/-- The reconstruct-from-model route handler (`POST`): requires a truthy
`original.base64` (missing or empty string is rejected with the
`Missing original base64` error), then decodes it and answers with
`original.contentType || "application/pdf"` and
`original.fileName || "document.pdf"`. -/
def reconstructFromModel (s : PdfStructure) : Except String ReconstructResponse :=
  match s.original with
  | none => Except.error "Missing original base64"
  | some orig =>
    match orig.base64 with
    | none => Except.error "Missing original base64"
    | some b64 =>
      if b64 = "" then Except.error "Missing original base64"
      else Except.ok
        { body := decodeB64 b64
          contentType := jsOrStr orig.contentType "application/pdf"
          fileName := jsOrStr orig.fileName "document.pdf" }

/-- The (duck-typed) result envelope of the Python extraction worker, as
declared in the extraction route: `{ success?, xml_content?, metadata?,
error?, extraction_method? }`.  The opaque `metadata: any` blob is kept as
an uninterpreted optional string. -/
structure PyExtractResult where
  success : Option Bool
  xml_content : Option String
  metadata : Option String
  error : Option String
  extraction_method : Option String
deriving DecidableEq

/-- The result envelope of the xml-to-pdf conversion worker
(`src/app/api/pdf/xml-to-pdf/route.ts`, line 25). -/
structure PyConvertResult where
  success : Option Bool
  pdf_data : Option String
  filename : Option String
  size : Option Nat
  error : Option String
  conversion_method : Option String
deriving DecidableEq

/-- The `close` handler of the extraction route's worker process:
exit code 0 parses the accumulated stdout (`JSON.parse` is the external
`parse` argument; `none` models a parse exception), a parse failure
resolves the `Failed to parse Python output` envelope, and a non-zero
exit resolves an error embedding the exit code and the full stderr
accumulator.  Both failure envelopes are tagged `extraction_method =
"failed"`. -/
def onCloseExtract (parse : String → Option PyExtractResult) (code : Int)
    (stdout stderr : String) : PyExtractResult :=
  if code = 0 then
    match parse stdout with
    | some r => r
    | none =>
      { success := none, xml_content := none, metadata := none
        error := some "Failed to parse Python output"
        extraction_method := some "failed" }
  else
    { success := none, xml_content := none, metadata := none
      error := some ("Python process failed with code " ++ toString code ++ ": " ++ stderr)
      extraction_method := some "failed" }

/-- The `close` handler of the xml-to-pdf route's worker process
(lines 50-63 of `src/app/api/pdf/xml-to-pdf/route.ts`): identical
classification, without the `extraction_method` tag. -/
def onCloseConvert (parse : String → Option PyConvertResult) (code : Int)
    (stdout stderr : String) : PyConvertResult :=
  if code = 0 then
    match parse stdout with
    | some r => r
    | none =>
      { success := none, pdf_data := none, filename := none, size := none
        error := some "Failed to parse Python output", conversion_method := none }
  else
    { success := none, pdf_data := none, filename := none, size := none
      error := some ("Python process failed with code " ++ toString code ++ ": " ++ stderr)
      conversion_method := none }

/-- State of one worker invocation's promise executor: whether the promise
has settled (and with what envelope), whether the 30-second `setTimeout`
timer is still pending, and how many kill signals have been issued against
the process slot. -/
structure WorkerInvocation where
  settled : Option PyExtractResult
  timerPending : Bool
  killSignalsSent : Nat
deriving DecidableEq

/-- JS promise `resolve`: settles the promise on first call, later calls
are no-ops. -/
def resolveOnce (r : PyExtractResult) (s : WorkerInvocation) : WorkerInvocation :=
  match s.settled with
  | none => { s with settled := some r }
  | some _ => s

/-- Invocation state right after `spawn`: promise pending, the 30000 ms
termination timer registered by `setTimeout`. -/
def initialInvocation : WorkerInvocation :=
  { settled := none, timerPending := true, killSignalsSent := 0 }

/-- Effect of the `close` event on the invocation state: the handler only
calls `resolve` with the classified envelope.  The source registers no
`clearTimeout`, so the pending timer is left untouched. -/
def handleClose (parse : String → Option PyExtractResult) (code : Int)
    (stdout stderr : String) (s : WorkerInvocation) : WorkerInvocation :=
  resolveOnce (onCloseExtract parse code stdout stderr) s

/-- The envelope resolved by the extraction route's timeout callback. -/
def timeoutResult : PyExtractResult :=
  { success := none, xml_content := none, metadata := none
    error := some "PDF processing timeout", extraction_method := some "timeout" }

/-- Effect of the `setTimeout` callback firing: `pythonProcess.kill()`
followed by `resolve` of the timeout envelope; firing consumes the timer. -/
def handleTimeout (s : WorkerInvocation) : WorkerInvocation :=
  resolveOnce timeoutResult
    { s with timerPending := false, killSignalsSent := s.killSignalsSent + 1 }

/-- JS `Math.round` on a rational (round half towards positive infinity). -/
def jsRound (x : ℚ) : ℤ := ⌊x + 1 / 2⌋

/-- `Math.round(v * 100) / 100`, the two-decimal rounding applied to the
synthesized page width and height. -/
def roundTo2 (x : ℚ) : ℚ := (jsRound (x * 100) : ℚ) / 100

/-- JS whitespace test for `String.prototype.trim`, restricted to the
ASCII whitespace characters (space, tab, LF, VT, FF, CR). -/
def jsWhitespace (c : Char) : Bool := [32, 9, 10, 11, 12, 13].contains c.toNat

/-- Model of JS `String.prototype.trim`: strip whitespace from both ends. -/
def jsTrim (s : String) : String :=
  String.mk (((s.data.dropWhile jsWhitespace).reverse.dropWhile jsWhitespace).reverse)

/-- JS `split(/\r?\n/)`: cut at every `\r\n` or lone `\n`; a lone `\r` is
not a separator. -/
def splitCRLF : List Char → List (List Char)
  | [] => [[]]
  | '\r' :: '\n' :: rest => [] :: splitCRLF rest
  | '\n' :: rest => [] :: splitCRLF rest
  | c :: rest =>
    match splitCRLF rest with
    | [] => [[c]]
    | l :: ls => (c :: l) :: ls

/-- Step 1 of the fallback layout synthesizer: split the page's raw text by
line boundaries and keep only lines that are non-empty after trimming. -/
def synthLines (pageText : String) : List String :=
  ((splitCRLF pageText.data).map String.mk).filter (fun line => (jsTrim line).length > 0)

/-- One synthesized text block of the fallback layout: fixed left margin,
vertical stacking at a 20-unit pitch from the top, width estimated from the
raw character count (capped to the page width minus margins), canonical
fallback font attributes, `hasEOL` except on the final line. -/
def synthBlock (height pageWidth : ℚ) (lineIndex numLines : Nat) (line : String) : TextBlock :=
  { text := jsTrim line
    x := 50
    y := height - 50 - (lineIndex * 20 : Nat)
    width := min ((line.length : ℚ) * 8) (pageWidth - 100)
    height := 16
    fontSize := 12
    fontFamily := "Arial"
    fontWeight := "normal"
    fontStyle := "normal"
    color := "#000000"
    rotation := 0
    direction := "ltr"
    hasEOL := decide (lineIndex < numLines - 1) }

/-- The synthesized text blocks of one page before the placeholder check. -/
def synthTextBlocks (height pageWidth : ℚ) (pageText : String) : List TextBlock :=
  let lines := synthLines pageText
  lines.enum.map (fun pr => synthBlock height pageWidth pr.1 lines.length pr.2)

/-- The placeholder block pushed when no text was found on page `i`
(0-based): a muted-color human-readable notice. -/
def placeholderBlock (i : Nat) (height : ℚ) : TextBlock :=
  { text := "Page " ++ toString (i + 1) ++ " - No text content detected"
    x := 50, y := height - 50, width := 300, height := 20, fontSize := 12
    fontFamily := "Arial", fontWeight := "normal", fontStyle := "normal"
    color := "#666666", rotation := 0, direction := "ltr", hasEOL := false }

/-- The full text-block list of one synthesized page: the real blocks, or
exactly one placeholder when none survived. -/
def synthPageTextBlocks (i : Nat) (height pageWidth : ℚ) (pageText : String) : List TextBlock :=
  let bs := synthTextBlocks height pageWidth pageText
  if bs.isEmpty then [placeholderBlock i height] else bs

/-- The single whole-page image placeholder paired with every synthesized
page: no raster payload (`dataUrl` absent), only a description. -/
def pageImagePlaceholder (i : Nat) (width height : ℚ) : ImageBlock :=
  { x := 0, y := 0, width := width, height := height, rotation := 0
    dataUrl := none
    description := some ("Page " ++ toString (i + 1) ++ " visual content") }

/-- One page as assembled by the fallback extraction route's loop body
(0-based loop index `i`): rounded dimensions, synthesized text blocks,
exactly one image placeholder. -/
def synthPage (i : Nat) (width height : ℚ) (pageText : String) : PageData :=
  { pageNumber := i + 1
    width := roundTo2 width
    height := roundTo2 height
    textBlocks := synthPageTextBlocks i height width pageText
    images := [pageImagePlaceholder i width height]
    background := none, extractionMethod := none
    textLength := none, lineCount := none, hasContent := none }

/-- A text block with canonical fallback styling and the given text, used
as a concrete test input. -/
def sampleBlock (t : String) : TextBlock :=
  { text := t, x := 10, y := 20, width := 100, height := 16, fontSize := 12
    fontFamily := "Arial", fontWeight := "normal", fontStyle := "normal"
    color := "#000000", rotation := 0, direction := "ltr", hasEOL := false }

/-- A page with no upstream-supplied stats whose blocks have text lengths
5, 0 and 12. -/
def statsSamplePage : PageData :=
  { pageNumber := 1, width := 612, height := 792
    textBlocks := [sampleBlock "Hello", sampleBlock "", sampleBlock "HelloWorld12"]
    images := [], background := none, extractionMethod := none
    textLength := none, lineCount := none, hasContent := none }

/-- The escaping test text from the spec, with all five reserved markup
characters. -/
def quoteText : String := "<b>&\x22quote\x22</b>"

/-- A block whose text is `quoteText`. -/
def quoteBlock : TextBlock := sampleBlock quoteText

/-- A block whose `fontWeight` itself contains reserved markup characters. -/
def badWeightBlock : TextBlock :=
  { sampleBlock "x" with fontWeight := "<w & \x22q\x22>" }

/-- Metadata claiming three pages. -/
def threePageMeta : PdfMetadata :=
  { title := none, author := none, subject := none, creator := none
    producer := none, creationDate := none, modificationDate := none
    numPages := 3 }

/-- A bare page with the given number and no content. -/
def barePage (n : Nat) : PageData :=
  { pageNumber := n, width := 612, height := 792, textBlocks := [], images := []
    background := none, extractionMethod := none, textLength := none
    lineCount := none, hasContent := none }

/-- Two pages, to pair with `threePageMeta`. -/
def twoPages : List PageData := [barePage 1, barePage 2]

/-- A `PdfStructure` value whose `document.numPages` is 3 while it has only
2 page entries: the model type accepts it. -/
def mismatchedStructure : PdfStructure :=
  { version := 1
    document :=
      { title := none, author := none, subject := none, keywords := none
        creator := none, producer := none, creationDate := none
        modificationDate := none, numPages := 3 }
    pages := [{ pageNumber := 1, width := none, height := none, textBlocks := [] },
              { pageNumber := 2, width := none, height := none, textBlocks := [] }]
    original := none }

/-- Metadata for the determinism test. -/
def detMeta : PdfMetadata :=
  { title := some "T", author := none, subject := none, creator := none
    producer := none, creationDate := none, modificationDate := none
    numPages := 1 }

/-- An image block used as a concrete test input. -/
def sampleImage : ImageBlock :=
  { x := 0, y := 0, width := 612, height := 792, rotation := 0
    dataUrl := none, description := some "logo" }

theorem decodeB64Char_encodeB64Char {n : Nat} (h : n < 64) :
    decodeB64Char (encodeB64Char n) = some n := by
  have H : ∀ m : Fin 64, decodeB64Char (encodeB64Char m.val) = some m.val := by decide
  exact H ⟨n, h⟩

theorem encodeB64Char_ne_pad {n : Nat} (h : n < 64) : encodeB64Char n ≠ '=' := by
  have H : ∀ m : Fin 64, encodeB64Char m.val ≠ '=' := by decide
  exact H ⟨n, h⟩

theorem b64_roundtrip : ∀ (B : List Nat), (∀ x ∈ B, x < 256) →
    decodeB64Chars (encodeB64Chars B) = B
  | [], _ => rfl
  | [a], h => by
      have ha : a < 256 := h a (by simp)
      have h1 : a / 4 < 64 := by omega
      have h2 : a % 4 * 16 < 64 := by omega
      have e1 : a % 4 * 16 / 16 = a % 4 := Nat.mul_div_cancel _ (by norm_num)
      simp only [encodeB64Chars, decodeB64Chars, decodeB64Char_encodeB64Char h1,
        decodeB64Char_encodeB64Char h2]
      rw [if_pos trivial]
      simp only [List.cons.injEq, and_true, e1]
      omega
  | [a, b], h => by
      have ha : a < 256 := h a (by simp)
      have hb : b < 256 := h b (by simp)
      have h1 : a / 4 < 64 := by omega
      have h2 : a % 4 * 16 + b / 16 < 64 := by omega
      have h3 : b % 16 * 4 < 64 := by omega
      have e1 : b % 16 * 4 / 4 = b % 16 := Nat.mul_div_cancel _ (by norm_num)
      simp only [encodeB64Chars, decodeB64Chars, decodeB64Char_encodeB64Char h1,
        decodeB64Char_encodeB64Char h2, decodeB64Char_encodeB64Char h3,
        if_neg (encodeB64Char_ne_pad h3)]
      rw [if_pos trivial]
      simp only [List.cons.injEq, and_true, e1]
      refine ⟨by omega, by omega⟩
  | a :: b :: c :: rest, h => by
      have ha : a < 256 := h a (by simp)
      have hb : b < 256 := h b (by simp)
      have hc : c < 256 := h c (by simp)
      have ih := b64_roundtrip rest (fun x hx => h x (by simp [hx]))
      have h1 : a / 4 < 64 := by omega
      have h2 : a % 4 * 16 + b / 16 < 64 := by omega
      have h3 : b % 16 * 4 + c / 64 < 64 := by omega
      have h4 : c % 64 < 64 := by omega
      cases rest with
      | nil =>
        simp only [encodeB64Chars, decodeB64Chars, decodeB64Char_encodeB64Char h1,
          decodeB64Char_encodeB64Char h2, decodeB64Char_encodeB64Char h3,
          decodeB64Char_encodeB64Char h4, if_neg (encodeB64Char_ne_pad h3),
          if_neg (encodeB64Char_ne_pad h4), List.cons.injEq, and_true]
        refine ⟨by omega, by omega, by omega⟩
      | cons d tail =>
        simp only [encodeB64Chars] at ih ⊢
        simp only [decodeB64Chars, decodeB64Char_encodeB64Char h1,
          decodeB64Char_encodeB64Char h2, decodeB64Char_encodeB64Char h3,
          decodeB64Char_encodeB64Char h4, if_neg (encodeB64Char_ne_pad h3),
          if_neg (encodeB64Char_ne_pad h4), List.cons.injEq]
        refine ⟨by omega, by omega, by omega, ?_⟩
        exact ih

theorem encodeB64_ne_empty {bytes : List Nat} (h : bytes ≠ []) : encodeB64 bytes ≠ "" := by
  intro hmk
  have hdata := congrArg String.data hmk
  have : encodeB64Chars bytes = [] := hdata
  match bytes, h with
  | a :: rest, _ =>
    match rest with
    | [] => simp [encodeB64Chars] at this
    | [b] => simp [encodeB64Chars] at this
    | b :: c :: t => simp [encodeB64Chars] at this

/-- C3: for any nonempty document bytes (all below 256) uploaded with a
nonempty file name and content type, reconstructing from the model produced
by the extract-with-original route returns exactly the original bytes, the
original content type, and the original file name. -/
theorem extract_reconstruct_roundtrip (pageSizes : List (ℚ × ℚ)) (bytes : List Nat)
    (name ctype : String) (hbytes : bytes ≠ []) (hrange : ∀ x ∈ bytes, x < 256)
    (hname : name ≠ "") (hctype : ctype ≠ "") :
    reconstructFromModel (extractWithOriginal pageSizes bytes (some name) ctype) =
      Except.ok { body := bytes, contentType := ctype, fileName := name } := by
  have henc : encodeB64 bytes ≠ "" := encodeB64_ne_empty hbytes
  simp only [reconstructFromModel, extractWithOriginal, Option.getD_some,
    if_neg hctype, if_neg henc]
  have hdec : decodeB64 (encodeB64 bytes) = bytes := b64_roundtrip bytes hrange
  simp [jsOrStr, hdec, hname, hctype]

/-- Witness for C3 at the header bytes of a PDF file. -/
theorem extract_reconstruct_roundtrip_witness :
    reconstructFromModel
        (extractWithOriginal [(612, 792)] [37, 80, 68, 70] (some "doc.pdf") "application/pdf") =
      Except.ok { body := [37, 80, 68, 70], contentType := "application/pdf",
                  fileName := "doc.pdf" } :=
  extract_reconstruct_roundtrip [(612, 792)] [37, 80, 68, 70] "doc.pdf" "application/pdf"
    (by decide) (by decide) (by decide) (by decide)

/-- C4 counterexample: after a normal exit (the `close` event, here with
exit code 0) the termination timer is still pending — the handler registers
no `clearTimeout` — and when the 30-second timer later fires it does issue
a forced kill against the process slot.  This refutes the claim that the
timer is cancelled immediately on normal exit. -/
theorem timer_not_cancelled_counterexample :
    (handleClose (fun _ => none) 0 "out" "" initialInvocation).timerPending = true ∧
    (handleTimeout (handleClose (fun _ => none) 0 "out" ""
        initialInvocation)).killSignalsSent = 1 := by
  constructor <;> rfl

/-- C4 amended: the termination timer is never cancelled; after any process
exit it remains pending and later fires a kill, but the late firing cannot
change the already-settled outcome (the promise `resolve` is a no-op). -/
theorem timer_pending_after_exit (parse : String → Option PyExtractResult)
    (code : Int) (stdout stderr : String) :
    (handleClose parse code stdout stderr initialInvocation).timerPending = true ∧
    (handleTimeout (handleClose parse code stdout stderr initialInvocation)).settled =
      (handleClose parse code stdout stderr initialInvocation).settled ∧
    (handleTimeout (handleClose parse code stdout stderr
        initialInvocation)).killSignalsSent = 1 := by
  refine ⟨rfl, ?_, rfl⟩
  simp [handleClose, handleTimeout, resolveOnce, initialInvocation]

/-- C7: classification of the worker outcome on process exit, for the
extraction route and the xml-to-pdf route alike: exit code 0 with
unparsable stdout yields the output-parse error envelope (tagged `failed`
on the extraction route); a non-zero exit code yields an error message
that embeds the exit code and the full stderr accumulator. -/
theorem worker_exit_classification (parseE : String → Option PyExtractResult)
    (parseC : String → Option PyConvertResult) (code : Int) (stdout stderr : String) :
    (code = 0 → parseE stdout = none →
      (onCloseExtract parseE code stdout stderr).error = some "Failed to parse Python output" ∧
      (onCloseExtract parseE code stdout stderr).extraction_method = some "failed" ∧
      (onCloseConvert parseC code stdout stderr).error =
        (parseC stdout).elim (some "Failed to parse Python output") (fun r => r.error)) ∧
    (code ≠ 0 → ∃ msg,
      (onCloseExtract parseE code stdout stderr).error = some msg ∧
      (onCloseConvert parseC code stdout stderr).error = some msg ∧
      (toString code).data <:+: msg.data ∧ stderr.data <:+: msg.data) := by
  constructor
  · intro h0 hp
    subst h0
    refine ⟨?_, ?_, ?_⟩
    · simp [onCloseExtract, hp]
    · simp [onCloseExtract, hp]
    · cases hpc : parseC stdout <;> simp [onCloseConvert, hpc]
  · intro hnz
    refine ⟨"Python process failed with code " ++ toString code ++ ": " ++ stderr,
      ?_, ?_, ?_, ?_⟩
    · simp [onCloseExtract, hnz]
    · simp [onCloseConvert, hnz]
    · exact ⟨"Python process failed with code ".data, (": " ++ stderr).data, by simp⟩
    · exact ⟨("Python process failed with code " ++ toString code ++ ": ").data, [], by simp⟩

/-- Witness for C7: a worker exiting with code 2 after writing `boom` to
stderr yields an execution error whose message carries the exit code 2 and
`boom`. -/
theorem worker_exit_classification_witness :
    ∃ msg,
      (onCloseExtract (fun _ => none) 2 "out" "boom").error = some msg ∧
      (onCloseConvert (fun _ => none) 2 "out" "boom").error = some msg ∧
      (toString (2 : Int)).data <:+: msg.data ∧ "boom".data <:+: msg.data :=
  (worker_exit_classification (fun _ => none) (fun _ => none) 2 "out" "boom").2 (by decide)

/-- C8: the layout synthesizer on raw page text `Hello\n\nWorld` yields
exactly two blocks, texts `Hello` and `World` (the blank middle line is
discarded after trimming), the second stacked strictly below the first,
with `hasEOL` true on the first block and false on the last. -/
theorem layout_synthesis_hello_world (h w : ℚ) (i : Nat) :
    ∃ b1 b2, synthPageTextBlocks i h w "Hello\n\nWorld" = [b1, b2] ∧
      b1.text = "Hello" ∧ b2.text = "World" ∧ b2.y < b1.y ∧
      b1.hasEOL = true ∧ b2.hasEOL = false := by
  refine ⟨synthBlock h w 0 2 "Hello", synthBlock h w 1 2 "World",
    rfl, rfl, rfl, ?_, rfl, rfl⟩
  show h - 50 - ((1 * 20 : Nat) : ℚ) < h - 50 - ((0 * 20 : Nat) : ℚ)
  norm_num

/-- C9 counterexample: the whole-page image placeholder's description is
`Page 1 visual content` with a capital `P`, not the claimed lower-case
`page 1 visual content`. -/
theorem image_description_case_counterexample :
    ((synthPage 0 612 792 "").images.map (fun img => img.description) =
      [some "Page 1 visual content"]) ∧
    ¬ ((synthPage 0 612 792 "").images.map (fun img => img.description) =
      [some "page 1 visual content"]) := by
  exact ⟨rfl, by decide⟩

/-- C9 amended: a page whose raw text yields zero surviving lines gets
exactly one placeholder block reading `Page N - No text content detected`
in the muted color `#666666`, and every page, regardless of text outcome,
gets exactly one whole-page image block with only the textual description
`Page N visual content` and no raster payload. -/
theorem placeholder_and_image_policy (i : Nat) (w h : ℚ) (txt txt2 : String)
    (hempty : synthLines txt = []) :
    (∃ pb, (synthPage i w h txt).textBlocks = [pb] ∧
      pb.text = "Page " ++ toString (i + 1) ++ " - No text content detected" ∧
      pb.color = "#666666") ∧
    (∃ img, (synthPage i w h txt2).images = [img] ∧
      img.description = some ("Page " ++ toString (i + 1) ++ " visual content") ∧
      img.dataUrl = none) := by
  refine ⟨⟨placeholderBlock i h, ?_, rfl, rfl⟩,
    ⟨pageImagePlaceholder i w h, rfl, rfl, rfl⟩⟩
  show synthPageTextBlocks i h w txt = [placeholderBlock i h]
  simp [synthPageTextBlocks, synthTextBlocks, hempty]

/-- Witness for C9 (amended) on a whitespace-only page text (every line is
blank after trimming, so zero lines survive) and an arbitrary second page
text for the image conjunct. -/
theorem placeholder_and_image_policy_witness :
    synthLines "  \n\t" = [] ∧
    ((∃ pb, (synthPage 0 612 792 "  \n\t").textBlocks = [pb] ∧
      pb.text = "Page " ++ toString (0 + 1) ++ " - No text content detected" ∧
      pb.color = "#666666") ∧
    (∃ img, (synthPage 0 612 792 "x").images = [img] ∧
      img.description = some ("Page " ++ toString (0 + 1) ++ " visual content") ∧
      img.dataUrl = none)) :=
  ⟨by decide, placeholder_and_image_policy 0 612 792 "  \n\t" "x" (by decide)⟩

/-- C10: every page of the model returned by the extract-with-original
route has an empty `textBlocks` array — the structural fields carry only
page dimensions, and all content lives in the embedded original payload. -/
theorem extract_pages_no_textblocks (pageSizes : List (ℚ × ℚ)) (bytes : List Nat)
    (name : Option String) (ctype : String) :
    ∀ p ∈ (extractWithOriginal pageSizes bytes name ctype).pages,
      p.textBlocks = [] := by
  intro p hp
  simp only [extractWithOriginal, List.mem_map] at hp
  obtain ⟨pr, _, hpr⟩ := hp
  rw [← hpr]

/-- Witness for C10 on a one-page upload. -/
theorem extract_pages_no_textblocks_witness :
    ({ pageNumber := 1, width := some 612, height := some 792, textBlocks := [] } :
        PdfStructurePage) ∈
      (extractWithOriginal [(612, 792)] [1] (some "a.pdf") "x").pages ∧
    ({ pageNumber := 1, width := some 612, height := some 792,
        textBlocks := [] } : PdfStructurePage).textBlocks = [] :=
  ⟨by decide,
   extract_pages_no_textblocks [(612, 792)] [1] (some "a.pdf") "x" _ (by decide)⟩

/-- C1 counterexample: a page whose blocks have text lengths 5, 0 and 12
but no upstream `textLength` serializes with a page-level `text-length`
attribute of `0`, not 17: the serializer emits the upstream value, it does
not sum the block texts. -/
theorem pageXml_stats_decomp (p : PageData) :
    ∃ pre suf, (pageXml p).data =
      pre ++ ("\n      text-length=\x22" ++ toString (jsOrNat p.textLength) ++
              "\x22\n      line-count=\x22" ++ toString (jsOrNat p.lineCount) ++
              "\x22").data ++ suf := by
  refine ⟨("\n    <page \n      number=\x22" ++ toString p.pageNumber ++
      "\x22 \n      width=\x22" ++ toString p.width ++
      "\x22 \n      height=\x22" ++ toString p.height ++
      "\x22\n      extraction-method=\x22" ++
      escapeXml (jsOrStr p.extractionMethod "unknown") ++ "\x22").data,
    ("\n      has-content=\x22" ++ toString (p.hasContent.getD false) ++
      "\x22>\n      \n      <page-info>\n        <dimensions width=\x22" ++ toString p.width ++
      "\x22 height=\x22" ++ toString p.height ++
      "\x22 />\n        <content-stats \n          text-length=\x22" ++
      toString (jsOrNat p.textLength) ++
      "\x22 \n          line-count=\x22" ++ toString (jsOrNat p.lineCount) ++
      "\x22 \n          text-blocks=\x22" ++ toString p.textBlocks.length ++
      "\x22\n          images=\x22" ++ toString p.images.length ++
      "\x22 />\n        <extraction-details method=\x22" ++
      escapeXml (jsOrStr p.extractionMethod "unknown") ++
      "\x22 />\n      </page-info>\n      \n      <text-blocks count=\x22" ++
      toString p.textBlocks.length ++
      "\x22>\n        " ++
      String.join (p.textBlocks.enum.map (fun pr => textBlockXml p.pageNumber pr.1 pr.2)) ++
      "\n      </text-blocks>\n      \n      " ++
      imagesSectionXml p ++
      "\n      \n      " ++
      backgroundXml p ++
      "\n      \n    </page>").data, ?_⟩
  simp only [pageXml, String.data_append, List.append_assoc]

/-- C1 counterexample: a page whose blocks have text lengths 5, 0 and 12
but no upstream `textLength` serializes with a page-level `text-length`
attribute of `0`, not 17: the serializer emits the upstream value, it does
not sum the block texts. -/
theorem page_text_length_counterexample :
    ((statsSamplePage.textBlocks.map (fun b => b.text.length)).sum = 17) ∧
    (∃ pre suf, (pageXml statsSamplePage).data =
      pre ++ "\n      text-length=\x220\x22\n      line-count=\x220\x22".data ++ suf) ∧
    (0 : Nat) ≠ 17 := by
  refine ⟨by decide, ?_, by decide⟩
  obtain ⟨pre, suf, h⟩ := pageXml_stats_decomp statsSamplePage
  exact ⟨pre, suf, h⟩

/-- C1 amended: the page-level `text-length` and `line-count` attributes
are the upstream-supplied `textLength`/`lineCount` values (0 when absent),
emitted verbatim and entirely independent of the page's blocks; they are
never recomputed by the serializer. -/
theorem page_stats_from_upstream (p : PageData) (bs : List TextBlock) :
    (∃ pre suf, (pageXml { p with textBlocks := bs }).data =
      pre ++ ("\n      text-length=\x22" ++ toString (p.textLength.getD 0) ++
              "\x22\n      line-count=\x22" ++ toString (p.lineCount.getD 0) ++
              "\x22").data ++ suf) ∧
    jsOrNat p.textLength = p.textLength.getD 0 ∧
    jsOrNat p.lineCount = p.lineCount.getD 0 := by
  have ht : jsOrNat p.textLength = p.textLength.getD 0 := by
    cases p.textLength <;> rfl
  have hl : jsOrNat p.lineCount = p.lineCount.getD 0 := by
    cases p.lineCount <;> rfl
  obtain ⟨pre, suf, h⟩ := pageXml_stats_decomp { p with textBlocks := bs }
  refine ⟨⟨pre, suf, ?_⟩, ht, hl⟩
  rw [← ht, ← hl]
  exact h

theorem mem_replaceAllChar {t : Char} {rep l : List Char} {c : Char}
    (hc : c ∈ replaceAllChar t rep l) : c ∈ rep ∨ (c ∈ l ∧ c ≠ t) := by
  induction l with
  | nil => simp [replaceAllChar] at hc
  | cons x rest ih =>
    simp only [replaceAllChar, List.mem_append] at hc
    rcases hc with h | h
    · by_cases hx : x = t
      · rw [if_pos hx] at h
        exact Or.inl h
      · rw [if_neg hx] at h
        simp only [List.mem_singleton] at h
        subst h
        exact Or.inr ⟨List.mem_cons_self _ _, hx⟩
    · rcases ih h with h2 | ⟨h2, h3⟩
      · exact Or.inl h2
      · exact Or.inr ⟨List.mem_cons_of_mem _ h2, h3⟩

theorem escapeXml_no_raw_reserved (s : String) :
    ∀ c ∈ (escapeXml s).data,
      c ≠ '<' ∧ c ≠ '>' ∧ c ≠ '\x22' ∧ c ≠ '\x27' := by
  intro c hc
  simp only [escapeXml] at hc
  rcases mem_replaceAllChar hc with h | ⟨hc, hq⟩
  · have h2 : c ∈ ['&', '#', '3', '9', ';'] := h
    fin_cases h2 <;> refine ⟨by decide, by decide, by decide, by decide⟩
  rcases mem_replaceAllChar hc with h | ⟨hc, hd⟩
  · have h2 : c ∈ ['&', 'q', 'u', 'o', 't', ';'] := h
    fin_cases h2 <;> refine ⟨by decide, by decide, by decide, by decide⟩
  rcases mem_replaceAllChar hc with h | ⟨hc, hg⟩
  · have h2 : c ∈ ['&', 'g', 't', ';'] := h
    fin_cases h2 <;> refine ⟨by decide, by decide, by decide, by decide⟩
  rcases mem_replaceAllChar hc with h | ⟨hc, hlt⟩
  · have h2 : c ∈ ['&', 'l', 't', ';'] := h
    fin_cases h2 <;> refine ⟨by decide, by decide, by decide, by decide⟩
  rcases mem_replaceAllChar hc with h | ⟨hc, ha⟩
  · have h2 : c ∈ ['&', 'a', 'm', 'p', ';'] := h
    fin_cases h2 <;> refine ⟨by decide, by decide, by decide, by decide⟩
  exact ⟨hlt, hg, hd, hq⟩

theorem textBlockXml_text_decomp (pn i : Nat) (b : TextBlock) :
    ∃ pre suf, (textBlockXml pn i b).data =
      pre ++ (escapeXml b.text).data ++ suf := by
  refine ⟨("\n        <text-block \n          " ++
      "id=\x22block-" ++ toString pn ++ "-" ++ toString (i + 1) ++ "\x22" ++
      "\n          x=\x22" ++ toString b.x ++
      "\x22 \n          y=\x22" ++ toString b.y ++
      "\x22 \n          width=\x22" ++ toString b.width ++
      "\x22 \n          height=\x22" ++ toString b.height ++
      "\x22\n          font-size=\x22" ++ toString b.fontSize ++
      "\x22\n          font-family=\x22" ++ escapeXml b.fontFamily ++
      "\x22\n          font-weight=\x22" ++ b.fontWeight ++
      "\x22\n          font-style=\x22" ++ b.fontStyle ++
      "\x22\n          color=\x22" ++ escapeXml b.color ++
      "\x22\n          rotation=\x22" ++ toString b.rotation ++
      "\x22\n          direction=\x22" ++ escapeXml b.direction ++
      "\x22\n          has-eol=\x22" ++ toString b.hasEOL ++
      "\x22\n          text-length=\x22" ++ toString b.text.length ++
      "\x22>\n          ").data,
    "\n        </text-block>".data, ?_⟩
  simp only [textBlockXml, String.data_append, List.append_assoc]

theorem textBlockXml_fontWeight_decomp (pn i : Nat) (b : TextBlock) :
    ∃ pre suf, (textBlockXml pn i b).data =
      pre ++ ("\x22\n          font-weight=\x22" ++ b.fontWeight ++
              "\x22\n          font-style=\x22" ++ b.fontStyle).data ++ suf := by
  refine ⟨("\n        <text-block \n          " ++
      "id=\x22block-" ++ toString pn ++ "-" ++ toString (i + 1) ++ "\x22" ++
      "\n          x=\x22" ++ toString b.x ++
      "\x22 \n          y=\x22" ++ toString b.y ++
      "\x22 \n          width=\x22" ++ toString b.width ++
      "\x22 \n          height=\x22" ++ toString b.height ++
      "\x22\n          font-size=\x22" ++ toString b.fontSize ++
      "\x22\n          font-family=\x22" ++ escapeXml b.fontFamily).data,
    ("\x22\n          color=\x22" ++ escapeXml b.color ++
      "\x22\n          rotation=\x22" ++ toString b.rotation ++
      "\x22\n          direction=\x22" ++ escapeXml b.direction ++
      "\x22\n          has-eol=\x22" ++ toString b.hasEOL ++
      "\x22\n          text-length=\x22" ++ toString b.text.length ++
      "\x22>\n          " ++ escapeXml b.text ++
      "\n        </text-block>").data, ?_⟩
  simp only [textBlockXml, String.data_append, List.append_assoc]

/-- C2 counterexample: the `font-weight` attribute value is interpolated
verbatim, not through `escapeXml`: a block whose `fontWeight` contains
reserved markup characters serializes with them raw, even though
`escapeXml` would have rewritten them. -/
theorem fontWeight_not_escaped_counterexample :
    (∃ pre suf, (textBlockXml 1 0 badWeightBlock).data =
      pre ++ ("\x22\n          font-weight=\x22<w & \x22q\x22>" ++
              "\x22\n          font-style=\x22normal").data ++ suf) ∧
    escapeXml "<w & \x22q\x22>" ≠ "<w & \x22q\x22>" := by
  refine ⟨?_, by decide⟩
  obtain ⟨pre, suf, h⟩ := textBlockXml_fontWeight_decomp 1 0 badWeightBlock
  exact ⟨pre, suf, h⟩

/-- C2 amended: the single shared routine `escapeXml` leaves no raw
`<`, `>`, `"` or `'` in its output; block text passes through it, so the
test text `<b>&"quote"</b>` serializes with all five reserved characters
replaced by entities and cannot introduce nested markup — but the
`font-weight` and `font-style` attribute values bypass `escapeXml`. -/
theorem escaping_policy (pn i : Nat) (b : TextBlock) (s : String) :
    (∀ c ∈ (escapeXml s).data,
      c ≠ '<' ∧ c ≠ '>' ∧ c ≠ '\x22' ∧ c ≠ '\x27') ∧
    (∃ pre suf, (textBlockXml pn i b).data =
      pre ++ (escapeXml b.text).data ++ suf) ∧
    escapeXml quoteText = "&lt;b&gt;&amp;&quot;quote&quot;&lt;/b&gt;" ∧
    (∃ pre suf, (textBlockXml 1 0 quoteBlock).data =
      pre ++ "&lt;b&gt;&amp;&quot;quote&quot;&lt;/b&gt;".data ++ suf) := by
  refine ⟨escapeXml_no_raw_reserved s, textBlockXml_text_decomp pn i b, by decide, ?_⟩
  obtain ⟨pre, suf, h⟩ := textBlockXml_text_decomp 1 0 quoteBlock
  refine ⟨pre, suf, ?_⟩
  rw [show ("&lt;b&gt;&amp;&quot;quote&quot;&lt;/b&gt;" : String).data =
    (escapeXml quoteBlock.text).data from by decide]
  exact h

/-- Witness for C2 (amended): the escaped form of `<` is `&lt;`, whose
characters are all distinct from the four raw reserved characters. -/
theorem escaping_policy_witness :
    '&' ∈ (escapeXml "<").data ∧
    ('&' ≠ '<' ∧ '&' ≠ '>' ∧ '&' ≠ '\x22' ∧ '&' ≠ '\x27') :=
  ⟨by decide, (escaping_policy 1 0 quoteBlock "<").1 '&' (by decide)⟩

theorem createPdfXml_decomp (f : String) (m : PdfMetadata) (ps : List PageData) :
    ∃ pre mid suf, (createPdfXml f m ps).data =
      pre ++ ("<page-count>" ++ toString m.numPages ++ "</page-count>").data ++
      mid ++ (String.join (ps.map pageXml)).data ++ suf := by
  refine ⟨("<?xml version=\x221.0\x22 encoding=\x22UTF-8\x22?>\n<pdf-document>\n  <metadata>\n    <title>" ++
      escapeXml (jsOrStr m.title "") ++
      "</title>\n    <author>" ++ escapeXml (jsOrStr m.author "") ++
      "</author>\n    <subject>" ++ escapeXml (jsOrStr m.subject "") ++
      "</subject>\n    <creator>" ++ escapeXml (jsOrStr m.creator "") ++
      "</creator>\n    <producer>" ++ escapeXml (jsOrStr m.producer "") ++
      "</producer>\n    <creation-date>" ++ escapeXml (jsOrStr m.creationDate "") ++
      "</creation-date>\n    <modification-date>" ++
      escapeXml (jsOrStr m.modificationDate "") ++
      "</modification-date>\n    ").data,
    "\n  </metadata>\n  <pages>\n    ".data,
    "\n  </pages>\n</pdf-document>".data, ?_⟩
  simp only [createPdfXml, String.data_append, List.append_assoc]

/-- C5 counterexample: metadata claiming 3 pages paired with only 2 page
entries is neither rejected by the model type (`mismatchedStructure`
inhabits `PdfStructure`) nor by the serializer, which silently emits
`<page-count>3</page-count>` around a pages section holding exactly the
2 supplied page elements. -/
theorem numPages_mismatch_counterexample :
    (∃ pre mid suf, (createPdfXml "doc.pdf" threePageMeta twoPages).data =
      pre ++ "<page-count>3</page-count>".data ++ mid ++
      (String.join (twoPages.map pageXml)).data ++ suf) ∧
    twoPages.length = 2 ∧ threePageMeta.numPages = 3 ∧
    mismatchedStructure.document.numPages = 3 ∧
    mismatchedStructure.pages.length = 2 := by
  refine ⟨?_, rfl, rfl, rfl, rfl⟩
  obtain ⟨pre, mid, suf, h⟩ := createPdfXml_decomp "doc.pdf" threePageMeta twoPages
  exact ⟨pre, mid, suf, h⟩

/-- C5 amended: no validation relates `numPages` to the page list — the
serializer always emits `numPages` as the `page-count` element and
serializes exactly the supplied pages, whatever their number. -/
theorem numPages_serialized_unchecked (f : String) (m : PdfMetadata) (ps : List PageData) :
    (∃ pre mid suf, (createPdfXml f m ps).data =
      pre ++ ("<page-count>" ++ toString m.numPages ++ "</page-count>").data ++
      mid ++ (String.join (ps.map pageXml)).data ++ suf) ∧
    (ps.map pageXml).length = ps.length :=
  ⟨createPdfXml_decomp f m ps, ps.length_map pageXml⟩

theorem textBlockXml_id_decomp (pn i : Nat) (b : TextBlock) :
    ∃ pre suf, (textBlockXml pn i b).data =
      pre ++ ("id=\x22block-" ++ toString pn ++ "-" ++ toString (i + 1) ++
              "\x22").data ++ suf := by
  refine ⟨"\n        <text-block \n          ".data,
    ("\n          x=\x22" ++ toString b.x ++
      "\x22 \n          y=\x22" ++ toString b.y ++
      "\x22 \n          width=\x22" ++ toString b.width ++
      "\x22 \n          height=\x22" ++ toString b.height ++
      "\x22\n          font-size=\x22" ++ toString b.fontSize ++
      "\x22\n          font-family=\x22" ++ escapeXml b.fontFamily ++
      "\x22\n          font-weight=\x22" ++ b.fontWeight ++
      "\x22\n          font-style=\x22" ++ b.fontStyle ++
      "\x22\n          color=\x22" ++ escapeXml b.color ++
      "\x22\n          rotation=\x22" ++ toString b.rotation ++
      "\x22\n          direction=\x22" ++ escapeXml b.direction ++
      "\x22\n          has-eol=\x22" ++ toString b.hasEOL ++
      "\x22\n          text-length=\x22" ++ toString b.text.length ++
      "\x22>\n          " ++ escapeXml b.text ++
      "\n        </text-block>").data, ?_⟩
  simp only [textBlockXml, String.data_append, List.append_assoc]

theorem imageXml_id_decomp (pn i : Nat) (img : ImageBlock) :
    ∃ pre suf, (imageXml pn i img).data =
      pre ++ ("id=\x22image-" ++ toString pn ++ "-" ++ toString (i + 1) ++
              "\x22").data ++ suf := by
  refine ⟨"\n        <image \n          ".data,
    ("\n          x=\x22" ++ toString img.x ++
      "\x22 \n          y=\x22" ++ toString img.y ++
      "\x22 \n          width=\x22" ++ toString img.width ++
      "\x22 \n          height=\x22" ++ toString img.height ++
      "\x22\n          rotation=\x22" ++ toString img.rotation ++
      "\x22\n          " ++
      (match img.dataUrl with
       | some u => if u = "" then "" else "data-url=\x22" ++ escapeXml u ++ "\x22"
       | none => "") ++
      "\n          " ++
      (match img.description with
       | some d => if d = "" then "" else "description=\x22" ++ escapeXml d ++ "\x22"
       | none => "") ++
      " />").data, ?_⟩
  simp only [imageXml, String.data_append, List.append_assoc]

/-- C6: the serializer is deterministic — equal models serialize to
byte-identical markup — and the text-block and image identifiers are
synthesized solely from the page number and the 1-based ordinal within the
page, appearing verbatim as `block-<page>-<ordinal>` and
`image-<page>-<ordinal>` in the emitted fragments. -/
theorem serializer_deterministic (f g : String) (m m2 : PdfMetadata)
    (ps ps2 : List PageData) (hf : f = g) (hm : m = m2) (hp : ps = ps2) :
    createPdfXml f m ps = createPdfXml g m2 ps2 ∧
    (∀ (pn i : Nat) (b : TextBlock), ∃ pre suf, (textBlockXml pn i b).data =
      pre ++ ("id=\x22block-" ++ toString pn ++ "-" ++ toString (i + 1) ++
              "\x22").data ++ suf) ∧
    (∀ (pn i : Nat) (img : ImageBlock), ∃ pre suf, (imageXml pn i img).data =
      pre ++ ("id=\x22image-" ++ toString pn ++ "-" ++ toString (i + 1) ++
              "\x22").data ++ suf) := by
  subst hf hm hp
  exact ⟨rfl, textBlockXml_id_decomp, imageXml_id_decomp⟩

/-- Witness for C6 on a concrete model, block and image. -/
theorem serializer_deterministic_witness :
    createPdfXml "doc.pdf" detMeta [barePage 1] = createPdfXml "doc.pdf" detMeta [barePage 1] ∧
    (∃ pre suf, (textBlockXml 2 0 (sampleBlock "hi")).data =
      pre ++ ("id=\x22block-" ++ toString (2 : Nat) ++ "-" ++ toString (0 + 1) ++
              "\x22").data ++ suf) ∧
    (∃ pre suf, (imageXml 2 0 sampleImage).data =
      pre ++ ("id=\x22image-" ++ toString (2 : Nat) ++ "-" ++ toString (0 + 1) ++
              "\x22").data ++ suf) :=
  ⟨(serializer_deterministic "doc.pdf" "doc.pdf" detMeta detMeta [barePage 1] [barePage 1]
      rfl rfl rfl).1,
   (serializer_deterministic "doc.pdf" "doc.pdf" detMeta detMeta [barePage 1] [barePage 1]
      rfl rfl rfl).2.1 2 0 (sampleBlock "hi"),
   (serializer_deterministic "doc.pdf" "doc.pdf" detMeta detMeta [barePage 1] [barePage 1]
      rfl rfl rfl).2.2 2 0 sampleImage⟩
